import Mathlib

/-!
Shallow embedding of the RUVA backend (src/main.py, src/schemas.py):
record schemas, the document-store adapter, the rule-based plan
generators and the HTTP handlers, together with theorems settling the
frozen claims about the system.
-/

namespace Ruva

/-- The `plan` field of a User record (`Literal["free","weekly","monthly","yearly"]`
in `schemas.py`), defaulting to `free`. -/
inductive Plan where
  | free
  | weekly
  | monthly
  | yearly
deriving DecidableEq, Repr

/-- `User` schema from `schemas.py`: email, opaque password hash,
guest flag and subscription plan. -/
structure User where
  email : String
  password_hash : String
  is_guest : Bool
  plan : Plan := .free
deriving DecidableEq, Repr

/-- `UserInput` schema from `schemas.py`: user id plus optional photo URL,
measurements (validated elsewhere), goals and style vibe.  The same shape
serves as the raw request body (validation is a filter on it) and as the
record handed to the generators; the bare fallback record of
`run_workflow` is this shape with every optional field absent. -/
structure UserInput where
  user_id : String
  face_photo_url : Option String := none
  height_cm : Option Int := none
  weight_kg : Option ℚ := none
  age : Option Int := none
  goals : Option String := none
  style_vibe : Option String := none
deriving DecidableEq, Repr

/-- `AnalysisSummary` schema from `schemas.py`. -/
structure AnalysisSummary where
  user_id : String
  face_summary : String
  physique_summary : String
  style_summary : String
  outfit_summary : String
deriving DecidableEq, Repr

/-- `LookmaxxingDetail` schema from `schemas.py`. -/
structure LookmaxxingDetail where
  user_id : String
  face_shape : String
  strong_features : List String := []
  weak_features : List String := []
  grooming : List String := []
  hairstyle : List String := []
  accessories : List String := []
deriving DecidableEq, Repr

/-- `PhysiquePlan` schema from `schemas.py`. -/
structure PhysiquePlan where
  user_id : String
  body_type : String
  workout_7_day : List String := []
  posture_cues : List String := []
  diet_notes : List String := []
deriving DecidableEq, Repr

/-- `StylingPlan` schema from `schemas.py`. -/
structure StylingPlan where
  user_id : String
  daily_outfits : List String := []
  colours : List String := []
  wardrobe_essentials : List String := []
  hairstyle_synergy : List String := []
deriving DecidableEq, Repr

/-- `GlowUpPlan` schema from `schemas.py`. -/
structure GlowUpPlan where
  user_id : String
  week_by_week : List String := []
deriving DecidableEq, Repr

/-- Modelled from the spec: a record as stored by the document store
adapter (`database.py` is absent from the sources): the record body
together with the identifier the insert assigned to it. -/
structure Stored (α : Type) where
  id : Nat
  body : α
deriving DecidableEq, Repr

/-- Modelled from the spec: the document store's state, one collection
per schema (named as the lowercase schema name), plus the counter from
which fresh identifiers are drawn.  `database.py` is absent from the
sources; the spec fixes one collection per schema and insertion of one
record per `create_document` call with a newly assigned unique id. -/
structure Store where
  user : List (Stored User)
  userinput : List (Stored UserInput)
  lookmaxxingdetail : List (Stored LookmaxxingDetail)
  physiqueplan : List (Stored PhysiquePlan)
  stylingplan : List (Stored StylingPlan)
  glowupplan : List (Stored GlowUpPlan)
  analysissummary : List (Stored AnalysisSummary)
  nextId : Nat
deriving DecidableEq, Repr

/-- The store with every collection empty. -/
def emptyStore : Store := ⟨[], [], [], [], [], [], [], 0⟩

/-- Modelled from the spec: the outcome the environment assigns to one
store operation of a handler run.  `fail msg` is a StoreUnavailable
failure (the adapter raises; callers may or may not catch it); `ok r`
lets the operation succeed, with `r` choosing the order in which a query
enumerates the collection (the spec guarantees no sort order), given as
a permutation of the collection's positions; a non-permutation `r`
degrades to the collection's natural insertion order. -/
inductive OpOutcome where
  | ok (reorder : List Nat)
  | fail (msg : String)

/-- A store environment: the outcome of the `k`-th store operation
performed by a handler invocation. -/
abbrev Env := Nat → OpOutcome

/-- The environment in which every store operation succeeds and queries
enumerate collections in natural insertion order. -/
def envOk : Env := fun _ => .ok []

/-- The environment in which exactly the `i`-th store operation fails
with message `msg` and every other operation behaves like `envOk`. -/
def envFailAt (i : Nat) (msg : String) : Env :=
  fun k => if k = i then .fail msg else .ok []

/-- The order in which a query enumerates a collection `c`: the
reordering `r` of positions when it is a genuine permutation of them,
the natural insertion order otherwise. -/
def viewOf {α : Type} (c : List α) (r : List Nat) : List α :=
  if r.isPerm (List.range c.length) then r.filterMap c.get? else c

/-- Modelled from the spec: `get_documents("user", {"email": email}, limit=1)`:
exact-match filter on the email field, capped at one result, enumeration
order chosen by the environment; fails when the environment fails the
operation. -/
def getUsersByEmail (env : Env) (k : Nat) (s : Store) (email : String) :
    Except String (List (Stored User)) :=
  match env k with
  | .fail msg => .error msg
  | .ok r => .ok (((viewOf s.user r).filter (fun u => u.body.email == email)).take 1)

/-- Modelled from the spec: `get_documents("userinput", {"user_id": uid}, limit=1)`. -/
def getUserInputs (env : Env) (k : Nat) (s : Store) (uid : String) :
    Except String (List (Stored UserInput)) :=
  match env k with
  | .fail msg => .error msg
  | .ok r => .ok (((viewOf s.userinput r).filter (fun d => d.body.user_id == uid)).take 1)

/-- Modelled from the spec: `create_document("user", u)` — appends the
record to the `user` collection and returns the newly assigned id. -/
def createUser (env : Env) (k : Nat) (s : Store) (u : User) :
    Except String (Nat × Store) :=
  match env k with
  | .fail msg => .error msg
  | .ok _ => .ok (s.nextId,
      { s with user := s.user ++ [⟨s.nextId, u⟩], nextId := s.nextId + 1 })

/-- Modelled from the spec: `create_document("userinput", d)`. -/
def createUserInput (env : Env) (k : Nat) (s : Store) (d : UserInput) :
    Except String (Nat × Store) :=
  match env k with
  | .fail msg => .error msg
  | .ok _ => .ok (s.nextId,
      { s with userinput := s.userinput ++ [⟨s.nextId, d⟩], nextId := s.nextId + 1 })

/-- Modelled from the spec: `create_document("lookmaxxingdetail", d)`. -/
def createLookmaxxingDetail (env : Env) (k : Nat) (s : Store) (d : LookmaxxingDetail) :
    Except String (Nat × Store) :=
  match env k with
  | .fail msg => .error msg
  | .ok _ => .ok (s.nextId,
      { s with lookmaxxingdetail := s.lookmaxxingdetail ++ [⟨s.nextId, d⟩], nextId := s.nextId + 1 })

/-- Modelled from the spec: `create_document("physiqueplan", d)`. -/
def createPhysiquePlan (env : Env) (k : Nat) (s : Store) (d : PhysiquePlan) :
    Except String (Nat × Store) :=
  match env k with
  | .fail msg => .error msg
  | .ok _ => .ok (s.nextId,
      { s with physiqueplan := s.physiqueplan ++ [⟨s.nextId, d⟩], nextId := s.nextId + 1 })

/-- Modelled from the spec: `create_document("stylingplan", d)`. -/
def createStylingPlan (env : Env) (k : Nat) (s : Store) (d : StylingPlan) :
    Except String (Nat × Store) :=
  match env k with
  | .fail msg => .error msg
  | .ok _ => .ok (s.nextId,
      { s with stylingplan := s.stylingplan ++ [⟨s.nextId, d⟩], nextId := s.nextId + 1 })

/-- Modelled from the spec: `create_document("glowupplan", d)`. -/
def createGlowUpPlan (env : Env) (k : Nat) (s : Store) (d : GlowUpPlan) :
    Except String (Nat × Store) :=
  match env k with
  | .fail msg => .error msg
  | .ok _ => .ok (s.nextId,
      { s with glowupplan := s.glowupplan ++ [⟨s.nextId, d⟩], nextId := s.nextId + 1 })

/-- Modelled from the spec: `create_document("analysissummary", d)`. -/
def createAnalysisSummary (env : Env) (k : Nat) (s : Store) (d : AnalysisSummary) :
    Except String (Nat × Store) :=
  match env k with
  | .fail msg => .error msg
  | .ok _ => .ok (s.nextId,
      { s with analysissummary := s.analysissummary ++ [⟨s.nextId, d⟩], nextId := s.nextId + 1 })

/-- `make_face_analysis` from `main.py`: fixed content, only the user id
is taken from the input record. -/
def make_face_analysis (data : UserInput) : LookmaxxingDetail :=
  { user_id := data.user_id
    face_shape := "oval"
    strong_features := ["defined jawline"]
    weak_features := ["under-eye puffiness"]
    grooming := ["weekly exfoliation", "SPF 50 daily"]
    hairstyle := ["medium length textured crop"]
    accessories := ["thin metal frames", "minimalist studs"] }

/-- `make_physique_plan` from `main.py`. -/
def make_physique_plan (data : UserInput) : PhysiquePlan :=
  { user_id := data.user_id
    body_type := "athletic"
    workout_7_day := ["Push strength", "Pull strength", "Legs + core",
      "Active recovery (walk + mobility)", "Upper hypertrophy",
      "Lower hypertrophy", "Rest + stretch"]
    posture_cues := ["neck long", "ribs down", "glutes on"]
    diet_notes := ["high protein", "2L water", "500 kcal deficit (if fat loss)"] }

/-- `make_styling_plan` from `main.py`. -/
def make_styling_plan (data : UserInput) : StylingPlan :=
  { user_id := data.user_id
    daily_outfits := ["monochrome black smart-casual", "cream knit + tapered chinos"]
    colours := ["cream", "black", "light gold"]
    wardrobe_essentials := ["white sneakers", "dark denim", "oxford shirt"]
    hairstyle_synergy := ["texture complements jawline"] }

/-- `make_glow_up` from `main.py`. -/
def make_glow_up (data : UserInput) : GlowUpPlan :=
  { user_id := data.user_id
    week_by_week := ["Week 1: skin baseline + haircut",
      "Week 2: posture daily 10m + wardrobe audit",
      "Week 3: gym routine locked",
      "Week 4: social refresh (bio/photos)",
      "Weeks 5-12: progressions + photos"] }

/-- `make_summary` from `main.py`: one-line summaries obtained by
f-string interpolation of fields of the three detail plans, with list
fields joined by `", "`. -/
def make_summary (face : LookmaxxingDetail) (phys : PhysiquePlan)
    (style : StylingPlan) : AnalysisSummary :=
  { user_id := face.user_id
    face_summary :=
      "Face shape " ++ face.face_shape ++ "; groom: " ++ String.intercalate ", " face.grooming
    physique_summary :=
      "Body " ++ phys.body_type ++ "; posture: " ++ String.intercalate ", " phys.posture_cues
    style_summary := "Colours: " ++ String.intercalate ", " style.colours
    outfit_summary := "Outfits: " ++ String.intercalate ", " style.daily_outfits }

/-- Whether an optional integer field, when supplied, lies in the
inclusive range `[lo, hi]` (pydantic `ge`/`le`). -/
def inRangeI (lo hi : Int) : Option Int → Bool
  | none => true
  | some v => decide (lo ≤ v ∧ v ≤ hi)

/-- Whether an optional rational field, when supplied, lies in the
inclusive range `[lo, hi]` (pydantic `ge`/`le` on a float field). -/
def inRangeQ (lo hi : ℚ) : Option ℚ → Bool
  | none => true
  | some v => decide (lo ≤ v ∧ v ≤ hi)

/-- The pydantic validation of a `UserInput` request body (`schemas.py`):
`height_cm` in [100, 250], `weight_kg` in [30, 250], `age` in [13, 100],
each only when supplied; performed by the framework before the handler
body runs, hence before any store access. -/
def validateUserInput (raw : UserInput) : Except String UserInput :=
  if !(inRangeI 100 250 raw.height_cm) then .error "height_cm out of range"
  else if !(inRangeQ 30 250 raw.weight_kg) then .error "weight_kg out of range"
  else if !(inRangeI 13 100 raw.age) then .error "age out of range"
  else .ok raw

/-- How a handler invocation can fail: `http status detail` is a raised
`HTTPException` (an intentional HTTP error response); `unhandled msg` is
an exception that escaped the handler uncaught (the framework's generic
error path, carrying no handler-shaped body). -/
inductive HFail where
  | http (status : Nat) (detail : String)
  | unhandled (msg : String)
deriving DecidableEq, Repr

/-- Request body of `/auth/signup`. -/
structure SignupRequest where
  email : String
  password : String
deriving DecidableEq, Repr

/-- Request body of `/auth/login`. -/
structure LoginRequest where
  email : String
  password : String
deriving DecidableEq, Repr

/-- Request body of `/auth/guest`. -/
structure GuestLoginRequest where
  email : String
deriving DecidableEq, Repr

/-- Response of `/auth/signup`: the new user's id and email. -/
structure SignupResponse where
  user_id : Nat
  email : String
deriving DecidableEq, Repr

/-- Response of `/auth/login`: the matched user's id and email. -/
structure LoginResponse where
  user_id : Nat
  email : String
deriving DecidableEq, Repr

/-- Response of `/auth/guest`: id, email and the guest flag. -/
structure GuestResponse where
  user_id : Nat
  email : String
  guest : Bool
deriving DecidableEq, Repr

/-- Response of `/input`: the stored record's id. -/
structure InputResponse where
  input_id : Nat
deriving DecidableEq, Repr

/-- Request body of `/workflow/run`. -/
structure WorkflowRequest where
  user_id : String
deriving DecidableEq, Repr

/-- Response of `/workflow/run`: the five generated documents under the
keys `summary`, `face`, `physique`, `styling`, `glow`. -/
structure WorkflowResponse where
  summary : AnalysisSummary
  face : LookmaxxingDetail
  physique : PhysiquePlan
  styling : StylingPlan
  glow : GlowUpPlan
deriving DecidableEq, Repr

/-- `signup` from `main.py`: the duplicate-email lookup is wrapped in
try/except (store failure → HTTP 500 with the raw message); a non-empty
result raises 409; the `create_document` call sits outside the
try/except, so its failure escapes the handler unhandled. -/
def signup (env : Env) (s : Store) (p : SignupRequest) :
    Except HFail SignupResponse × Store :=
  match getUsersByEmail env 0 s p.email with
  | .error e => (.error (.http 500 e), s)
  | .ok existing =>
    if existing.isEmpty then
      match createUser env 1 s
          { email := p.email, password_hash := "hash:" ++ p.password, is_guest := false } with
      | .error e => (.error (.unhandled e), s)
      | .ok (uid, s') => (.ok ⟨uid, p.email⟩, s')
    else (.error (.http 409 "Email already exists"), s)

/-- `login` from `main.py`: lookup wrapped in try/except (failure → 500);
empty result → 404; stored hash differing from `"hash:" + password` →
401; otherwise the first returned record's id and email. -/
def login (env : Env) (s : Store) (p : LoginRequest) :
    Except HFail LoginResponse × Store :=
  match getUsersByEmail env 0 s p.email with
  | .error e => (.error (.http 500 e), s)
  | .ok users =>
    match users with
    | [] => (.error (.http 404 "User not found"), s)
    | u :: _ =>
      if u.body.password_hash == "hash:" ++ p.password then
        (.ok ⟨u.id, u.body.email⟩, s)
      else (.error (.http 401 "Invalid credentials"), s)

/-- `guest_login` from `main.py`: unconditionally creates a guest user;
no try/except at all, so an insert failure escapes unhandled. -/
def guest_login (env : Env) (s : Store) (p : GuestLoginRequest) :
    Except HFail GuestResponse × Store :=
  match createUser env 0 s { email := p.email, password_hash := "guest", is_guest := true } with
  | .error e => (.error (.unhandled e), s)
  | .ok (uid, s') => (.ok ⟨uid, p.email, true⟩, s')

/-- `save_user_input` from `main.py`, preceded by the framework's body
validation (422 before any store access); the insert itself has no
try/except, so its failure escapes unhandled. -/
def save_user_input (env : Env) (s : Store) (raw : UserInput) :
    Except HFail InputResponse × Store :=
  match validateUserInput raw with
  | .error e => (.error (.http 422 e), s)
  | .ok data =>
    match createUserInput env 0 s data with
    | .error e => (.error (.unhandled e), s)
    | .ok (did, s') => (.ok ⟨did⟩, s')

/-- The record `run_workflow` feeds to the generators: the first record
of the query result, or the bare `{user_id}` fallback when the result is
empty. -/
def lookupBase (inputs : List (Stored UserInput)) (uid : String) : UserInput :=
  match inputs with
  | i :: _ => i.body
  | [] => { user_id := uid }

/-- `run_workflow` from `main.py`: the input lookup is wrapped in
try/except (failure → 500); then the four generators and the summary
composer run, and the five documents are persisted in the fixed order
lookmaxxingdetail, physiqueplan, stylingplan, glowupplan,
analysissummary — these five `create_document` calls carry no
try/except, so a write failure escapes unhandled, after the earlier
writes have already landed. -/
def run_workflow (env : Env) (s : Store) (req : WorkflowRequest) :
    Except HFail WorkflowResponse × Store :=
  match getUserInputs env 0 s req.user_id with
  | .error e => (.error (.http 500 e), s)
  | .ok inputs =>
    let base := lookupBase inputs req.user_id
    let face := make_face_analysis base
    let phys := make_physique_plan base
    let style := make_styling_plan base
    let glow := make_glow_up base
    let summary := make_summary face phys style
    match createLookmaxxingDetail env 1 s face with
    | .error e => (.error (.unhandled e), s)
    | .ok (_, s1) =>
    match createPhysiquePlan env 2 s1 phys with
    | .error e => (.error (.unhandled e), s1)
    | .ok (_, s2) =>
    match createStylingPlan env 3 s2 style with
    | .error e => (.error (.unhandled e), s2)
    | .ok (_, s3) =>
    match createGlowUpPlan env 4 s3 glow with
    | .error e => (.error (.unhandled e), s3)
    | .ok (_, s4) =>
    match createAnalysisSummary env 5 s4 summary with
    | .error e => (.error (.unhandled e), s4)
    | .ok (_, s5) => (.ok ⟨summary, face, phys, style, glow⟩, s5)

/-! ### Helper lemmas -/

/-- The empty reordering is a genuine permutation only of the empty
collection, so it always denotes the natural insertion order. -/
theorem viewOf_nil {α : Type} (c : List α) : viewOf c [] = c := by
  unfold viewOf
  split
  · next h =>
      rw [List.isPerm_iff] at h
      have hl := h.length_eq
      simp only [List.length_nil, List.length_range] at hl
      cases c with
      | nil => rfl
      | cons a t => simp at hl
  · rfl

/-- Under `envOk`, the duplicate-email query returns the first stored
user matching the email (insertion order), capped at one. -/
theorem getUsersByEmail_envOk (s : Store) (e : String) :
    getUsersByEmail envOk 0 s e =
      .ok ((s.user.filter (fun u => u.body.email == e)).take 1) := by
  simp [getUsersByEmail, envOk, viewOf_nil]

/-- Under `envOk`, the user-input query returns the first stored input
matching the user id (insertion order), capped at one. -/
theorem getUserInputs_envOk (s : Store) (uid : String) :
    getUserInputs envOk 0 s uid =
      .ok ((s.userinput.filter (fun d => d.body.user_id == uid)).take 1) := by
  simp [getUserInputs, envOk, viewOf_nil]

/-- When some stored user has the requested email, signup answers 409
and leaves the store unchanged. -/
theorem signup_dup (s : Store) (p : SignupRequest)
    (h : ∃ u ∈ s.user, u.body.email = p.email) :
    signup envOk s p = (.error (.http 409 "Email already exists"), s) := by
  obtain ⟨u, hu, he⟩ := h
  cases hf : s.user.filter (fun v => v.body.email == p.email) with
  | nil =>
      rw [List.filter_eq_nil_iff] at hf
      exact absurd (by simpa using he) (by simpa using hf u hu)
  | cons v t => simp [signup, getUsersByEmail_envOk, hf]

/-- When no stored user has the requested email, signup appends exactly
one user record with the prefixed hash and returns the fresh id. -/
theorem signup_new (s : Store) (p : SignupRequest)
    (h : ∀ u ∈ s.user, u.body.email ≠ p.email) :
    signup envOk s p =
      (.ok ⟨s.nextId, p.email⟩,
       { s with
           user := s.user ++
             [⟨s.nextId, { email := p.email, password_hash := "hash:" ++ p.password,
                           is_guest := false }⟩],
           nextId := s.nextId + 1 }) := by
  have hf : s.user.filter (fun v => v.body.email == p.email) = [] :=
    List.filter_eq_nil_iff.mpr (fun u hu => by simpa using h u hu)
  simp [signup, getUsersByEmail_envOk, hf, createUser, envOk]

/-! ### Claim theorems -/

/-- Claim C2: for every triple of face, physique and styling plan
records, `make_summary` joins the selected list fields with the exact
joiner `", "` in the stated concatenation order; in particular, for the
generated face record (grooming `["weekly exfoliation", "SPF 50 daily"]`,
face shape `oval`) the face summary is exactly
`"Face shape oval; groom: weekly exfoliation, SPF 50 daily"`. -/
theorem make_summary_format (face : LookmaxxingDetail) (phys : PhysiquePlan)
    (style : StylingPlan) :
    make_summary face phys style =
      { user_id := face.user_id
        face_summary := "Face shape " ++ face.face_shape ++ "; groom: " ++
          String.intercalate ", " face.grooming
        physique_summary := "Body " ++ phys.body_type ++ "; posture: " ++
          String.intercalate ", " phys.posture_cues
        style_summary := "Colours: " ++ String.intercalate ", " style.colours
        outfit_summary := "Outfits: " ++ String.intercalate ", " style.daily_outfits } ∧
    (make_face_analysis { user_id := "u" }).grooming =
      ["weekly exfoliation", "SPF 50 daily"] ∧
    (make_face_analysis { user_id := "u" }).face_shape = "oval" ∧
    (make_summary (make_face_analysis { user_id := "u" })
        (make_physique_plan { user_id := "u" })
        (make_styling_plan { user_id := "u" })).face_summary =
      "Face shape oval; groom: weekly exfoliation, SPF 50 daily" :=
  ⟨rfl, rfl, rfl, by decide⟩

/-- Claim C8: guest login always creates a fresh User record with
`password_hash = "guest"` and `is_guest = true`, returns id, email and
the guest flag, performs no uniqueness check, and therefore a repeated
call with the same email also succeeds and appends a second, distinct
record. -/
theorem guest_login_always_creates (s : Store) (p : GuestLoginRequest) :
    guest_login envOk s p =
      (.ok ⟨s.nextId, p.email, true⟩,
       { s with
           user := s.user ++
             [⟨s.nextId, { email := p.email, password_hash := "guest", is_guest := true }⟩],
           nextId := s.nextId + 1 }) ∧
    guest_login envOk (guest_login envOk s p).2 p =
      (.ok ⟨s.nextId + 1, p.email, true⟩,
       { s with
           user := s.user ++
             [⟨s.nextId, { email := p.email, password_hash := "guest", is_guest := true }⟩,
              ⟨s.nextId + 1, { email := p.email, password_hash := "guest", is_guest := true }⟩],
           nextId := s.nextId + 2 }) ∧
    s.nextId ≠ s.nextId + 1 := by
  refine ⟨rfl, ?_, by omega⟩
  simp [guest_login, createUser, envOk]

/-- Claim C9: all four plan generators are pure functions of the input
record that consult only its `user_id`: two inputs agreeing on `user_id`
produce identical outputs from every generator, whatever their photo
URL, measurements, goals or style vibe. -/
theorem generators_depend_only_on_user_id (d1 d2 : UserInput)
    (h : d1.user_id = d2.user_id) :
    make_face_analysis d1 = make_face_analysis d2 ∧
    make_physique_plan d1 = make_physique_plan d2 ∧
    make_styling_plan d1 = make_styling_plan d2 ∧
    make_glow_up d1 = make_glow_up d2 := by
  refine ⟨?_, ?_, ?_, ?_⟩ <;>
    simp [make_face_analysis, make_physique_plan, make_styling_plan, make_glow_up, h]

/-- Witness for C9: two concrete inputs sharing a user id but differing
in photo URL, measurements, goals and style vibe get identical plans. -/
theorem generators_depend_only_on_user_id_witness :
    make_face_analysis
        { user_id := "u1", face_photo_url := some "http://a/p.jpg",
          height_cm := some 180, weight_kg := some 80, age := some 25 } =
      make_face_analysis
        { user_id := "u1", goals := some "aesthetics", style_vibe := some "street" } ∧
    make_physique_plan
        { user_id := "u1", face_photo_url := some "http://a/p.jpg",
          height_cm := some 180, weight_kg := some 80, age := some 25 } =
      make_physique_plan
        { user_id := "u1", goals := some "aesthetics", style_vibe := some "street" } ∧
    make_styling_plan
        { user_id := "u1", face_photo_url := some "http://a/p.jpg",
          height_cm := some 180, weight_kg := some 80, age := some 25 } =
      make_styling_plan
        { user_id := "u1", goals := some "aesthetics", style_vibe := some "street" } ∧
    make_glow_up
        { user_id := "u1", face_photo_url := some "http://a/p.jpg",
          height_cm := some 180, weight_kg := some 80, age := some 25 } =
      make_glow_up
        { user_id := "u1", goals := some "aesthetics", style_vibe := some "street" } :=
  generators_depend_only_on_user_id _ _ rfl

/-- Counterexample to claim C6 as stated: a store insert failure in
guest login is not turned into an HTTP 500 response carrying the raw
message — it escapes the handler unhandled. -/
theorem insert_failure_escapes_counterexample :
    guest_login (envFailAt 0 "db down") emptyStore ⟨"g@x.com"⟩ =
      (.error (.unhandled "db down"), emptyStore) ∧
    HFail.unhandled "db down" ≠ HFail.http 500 "db down" :=
  ⟨rfl, by decide⟩

/-- Claim C6, amended: store read (`get_documents`) failures in signup,
login and `/workflow/run` are wrapped into HTTP 500 responses carrying
the raw message, while store insert (`create_document`) failures in
signup, guest login, `/input` and `/workflow/run` escape the handler
unhandled. -/
theorem store_failure_shaping (s : Store) (msg : String) (p : SignupRequest)
    (lp : LoginRequest) (gp : GuestLoginRequest) (uid : String) :
    signup (envFailAt 0 msg) s p = (.error (.http 500 msg), s) ∧
    login (envFailAt 0 msg) s lp = (.error (.http 500 msg), s) ∧
    run_workflow (envFailAt 0 msg) s ⟨uid⟩ = (.error (.http 500 msg), s) ∧
    signup (envFailAt 1 msg) emptyStore p = (.error (.unhandled msg), emptyStore) ∧
    guest_login (envFailAt 0 msg) s gp = (.error (.unhandled msg), s) ∧
    save_user_input (envFailAt 0 msg) s { user_id := uid } = (.error (.unhandled msg), s) ∧
    run_workflow (envFailAt 1 msg) s ⟨uid⟩ = (.error (.unhandled msg), s) :=
  ⟨rfl, rfl, rfl, rfl, rfl, rfl, rfl⟩

/-- Claim C7: the five `/workflow/run` writes are issued in the fixed
order lookmaxxingdetail, physiqueplan, stylingplan, glowupplan,
analysissummary, and a failure of the k-th write leaves exactly the
first k-1 documents persisted, with no rollback; the handler's outcome
is the same unhandled error whichever write failed, so the caller is
not told which writes landed. -/
theorem run_workflow_not_atomic (s : Store) (uid : String) (msg : String) :
    (run_workflow (envFailAt 1 msg) s ⟨uid⟩ = (.error (.unhandled msg), s)) ∧
    (let base := lookupBase
        ((s.userinput.filter (fun d => d.body.user_id == uid)).take 1) uid
     (run_workflow (envFailAt 2 msg) s ⟨uid⟩ =
       (.error (.unhandled msg),
        { s with
            lookmaxxingdetail :=
              s.lookmaxxingdetail ++ [⟨s.nextId, make_face_analysis base⟩],
            nextId := s.nextId + 1 })) ∧
     (run_workflow (envFailAt 3 msg) s ⟨uid⟩ =
       (.error (.unhandled msg),
        { s with
            lookmaxxingdetail :=
              s.lookmaxxingdetail ++ [⟨s.nextId, make_face_analysis base⟩],
            physiqueplan :=
              s.physiqueplan ++ [⟨s.nextId + 1, make_physique_plan base⟩],
            nextId := s.nextId + 2 })) ∧
     (run_workflow (envFailAt 4 msg) s ⟨uid⟩ =
       (.error (.unhandled msg),
        { s with
            lookmaxxingdetail :=
              s.lookmaxxingdetail ++ [⟨s.nextId, make_face_analysis base⟩],
            physiqueplan :=
              s.physiqueplan ++ [⟨s.nextId + 1, make_physique_plan base⟩],
            stylingplan :=
              s.stylingplan ++ [⟨s.nextId + 2, make_styling_plan base⟩],
            nextId := s.nextId + 3 })) ∧
     (run_workflow (envFailAt 5 msg) s ⟨uid⟩ =
       (.error (.unhandled msg),
        { s with
            lookmaxxingdetail :=
              s.lookmaxxingdetail ++ [⟨s.nextId, make_face_analysis base⟩],
            physiqueplan :=
              s.physiqueplan ++ [⟨s.nextId + 1, make_physique_plan base⟩],
            stylingplan :=
              s.stylingplan ++ [⟨s.nextId + 2, make_styling_plan base⟩],
            glowupplan :=
              s.glowupplan ++ [⟨s.nextId + 3, make_glow_up base⟩],
            nextId := s.nextId + 4 }))) := by
  refine ⟨rfl, ?_, ?_, ?_, ?_⟩ <;>
    simp [run_workflow, getUserInputs, envFailAt, viewOf_nil, lookupBase,
      createLookmaxxingDetail, createPhysiquePlan, createStylingPlan,
      createGlowUpPlan, createAnalysisSummary]

/-- Claim C4: signup answers 409 Conflict and writes nothing when a
stored user shares the email; otherwise it creates exactly one user with
`password_hash = "hash:" + password` and `is_guest = false` and returns
the fresh id and email; a second signup with the same email then fails
with 409, while signups with two different emails both succeed and
yield distinct identifiers. -/
theorem signup_contract (s : Store) (p : SignupRequest) :
    ((∃ u ∈ s.user, u.body.email = p.email) →
      signup envOk s p = (.error (.http 409 "Email already exists"), s)) ∧
    ((∀ u ∈ s.user, u.body.email ≠ p.email) →
      signup envOk s p =
        (.ok ⟨s.nextId, p.email⟩,
         { s with
             user := s.user ++
               [⟨s.nextId, { email := p.email, password_hash := "hash:" ++ p.password,
                             is_guest := false }⟩],
             nextId := s.nextId + 1 })) ∧
    (∀ p' : SignupRequest, p'.email = p.email →
      (∀ u ∈ s.user, u.body.email ≠ p.email) →
      signup envOk (signup envOk s p).2 p' =
        (.error (.http 409 "Email already exists"), (signup envOk s p).2)) ∧
    (∀ p' : SignupRequest, p'.email ≠ p.email →
      (∀ u ∈ s.user, u.body.email ≠ p.email) →
      (∀ u ∈ s.user, u.body.email ≠ p'.email) →
      ∃ i1 i2 s1 s2, signup envOk s p = (.ok ⟨i1, p.email⟩, s1) ∧
        signup envOk s1 p' = (.ok ⟨i2, p'.email⟩, s2) ∧ i1 ≠ i2) := by
  refine ⟨signup_dup s p, signup_new s p, ?_, ?_⟩
  · intro p' he hn
    rw [signup_new s p hn]
    exact signup_dup _ p' ⟨_, List.mem_append_right _ (List.mem_cons_self _ _), he.symm⟩
  · intro p' hne hn hn'
    have h2 := signup_new
      { s with
          user := s.user ++
            [⟨s.nextId, { email := p.email, password_hash := "hash:" ++ p.password,
                          is_guest := false }⟩],
          nextId := s.nextId + 1 } p'
      (by
        intro u hu
        rcases List.mem_append.mp hu with h | h
        · exact hn' u h
        · rcases List.mem_singleton.mp h with rfl
          simpa using hne.symm)
    exact ⟨s.nextId, s.nextId + 1, _, _, signup_new s p hn, h2, by omega⟩

/-- Witness for C4: on the empty store, signing up `a@x.com` succeeds,
and a second signup with the same email is rejected with 409 Conflict. -/
theorem signup_contract_witness :
    signup envOk (signup envOk emptyStore ⟨"a@x.com", "pw"⟩).2 ⟨"a@x.com", "pw2"⟩ =
      (.error (.http 409 "Email already exists"),
       (signup envOk emptyStore ⟨"a@x.com", "pw"⟩).2) :=
  (signup_contract emptyStore ⟨"a@x.com", "pw"⟩).2.2.1 ⟨"a@x.com", "pw2"⟩ rfl
    (by simp [emptyStore])

/-- Claim C5: login answers 404 when no stored user has the email, 401
when the first matching record's stored hash differs from
`"hash:" + password`, and otherwise the first matching record's id and
email; in particular, logging in right after a successful signup with
the same credentials returns exactly the identifier signup produced. -/
theorem login_contract (s : Store) (p : LoginRequest) :
    ((∀ u ∈ s.user, u.body.email ≠ p.email) →
      login envOk s p = (.error (.http 404 "User not found"), s)) ∧
    (∀ u rest, s.user.filter (fun v => v.body.email == p.email) = u :: rest →
      (u.body.password_hash ≠ "hash:" ++ p.password →
        login envOk s p = (.error (.http 401 "Invalid credentials"), s)) ∧
      (u.body.password_hash = "hash:" ++ p.password →
        login envOk s p = (.ok ⟨u.id, u.body.email⟩, s))) ∧
    ((∀ u ∈ s.user, u.body.email ≠ p.email) →
      login envOk (signup envOk s ⟨p.email, p.password⟩).2 ⟨p.email, p.password⟩ =
        (.ok ⟨s.nextId, p.email⟩, (signup envOk s ⟨p.email, p.password⟩).2)) := by
  refine ⟨?_, ?_, ?_⟩
  · intro hn
    have hf : s.user.filter (fun v => v.body.email == p.email) = [] :=
      List.filter_eq_nil_iff.mpr (fun u hu => by simpa using hn u hu)
    simp [login, getUsersByEmail_envOk, hf]
  · intro u rest hf
    constructor
    · intro hne
      simp [login, getUsersByEmail_envOk, hf, hne]
    · intro heq
      simp [login, getUsersByEmail_envOk, hf, heq]
  · intro hn
    rw [signup_new s ⟨p.email, p.password⟩ hn]
    have hf : s.user.filter (fun v => v.body.email == p.email) = [] :=
      List.filter_eq_nil_iff.mpr (fun u hu => by simpa using hn u hu)
    simp [login, getUsersByEmail_envOk, List.filter_append, hf]

/-- Witness for C5: the signup/login roundtrip on the empty store —
signup of `a@x.com` produces id 0 and login with the same credentials
returns id 0. -/
theorem login_contract_witness :
    login envOk (signup envOk emptyStore ⟨"a@x.com", "pw"⟩).2 ⟨"a@x.com", "pw"⟩ =
      (.ok ⟨0, "a@x.com"⟩, (signup envOk emptyStore ⟨"a@x.com", "pw"⟩).2) :=
  (login_contract emptyStore ⟨"a@x.com", "pw"⟩).2.2 (by simp [emptyStore])

/-- Claim C1: `/workflow/run` always succeeds under an available store:
it takes the stored UserInput matching the user id returned by the
limit-1 query, or the bare `{user_id}` record when none matches (so the
record fed to the generators always carries the requested user id —
first conjunct), runs all four generators plus the summary composer,
persists all five resulting records, and returns all five under the
keys `summary`, `face`, `physique`, `styling`, `glow`; on a store with
no prior input for the user the fallback branch applies and the run
still produces all five documents. -/
theorem run_workflow_contract (s : Store) (uid : String) :
    (lookupBase ((s.userinput.filter (fun d => d.body.user_id == uid)).take 1) uid).user_id
      = uid ∧
    run_workflow envOk s ⟨uid⟩ =
      (let base := lookupBase
          ((s.userinput.filter (fun d => d.body.user_id == uid)).take 1) uid
       (.ok { summary := make_summary (make_face_analysis base) (make_physique_plan base)
                (make_styling_plan base),
              face := make_face_analysis base,
              physique := make_physique_plan base,
              styling := make_styling_plan base,
              glow := make_glow_up base },
        { s with
            lookmaxxingdetail :=
              s.lookmaxxingdetail ++ [⟨s.nextId, make_face_analysis base⟩],
            physiqueplan :=
              s.physiqueplan ++ [⟨s.nextId + 1, make_physique_plan base⟩],
            stylingplan :=
              s.stylingplan ++ [⟨s.nextId + 2, make_styling_plan base⟩],
            glowupplan :=
              s.glowupplan ++ [⟨s.nextId + 3, make_glow_up base⟩],
            analysissummary :=
              s.analysissummary ++ [⟨s.nextId + 4,
                make_summary (make_face_analysis base) (make_physique_plan base)
                  (make_styling_plan base)⟩],
            nextId := s.nextId + 5 })) := by
  constructor
  · cases hf : s.userinput.filter (fun d => d.body.user_id == uid) with
    | nil => rfl
    | cons d t =>
        have hd : d ∈ s.userinput.filter (fun d => d.body.user_id == uid) := by
          rw [hf]; exact List.mem_cons_self _ _
        have hid := (List.mem_filter.mp hd).2
        simp only [beq_iff_eq] at hid
        simp [lookupBase, hid]
  · simp [run_workflow, getUserInputs_envOk, envOk,
      createLookmaxxingDetail, createPhysiquePlan, createStylingPlan,
      createGlowUpPlan, createAnalysisSummary]

/-- The conjunction of the three pydantic range checks over the
supplied numeric fields of a `UserInput` body. -/
def suppliedInRange (raw : UserInput) : Bool :=
  inRangeI 100 250 raw.height_cm && inRangeQ 30 250 raw.weight_kg &&
    inRangeI 13 100 raw.age

/-- Claim C3: a `/input` body with any supplied numeric field outside
its inclusive range (height 100–250, weight 30–250, age 13–100) is
rejected with a validation error before any store access — the store is
untouched and the outcome is the same whatever the store environment
does — while a body whose supplied fields all sit in range (boundaries
included) is accepted and stored. -/
theorem user_input_range_validation (raw : UserInput) (s : Store) :
    (suppliedInRange raw = false →
      ∃ m, ∀ env : Env, save_user_input env s raw = (.error (.http 422 m), s)) ∧
    (suppliedInRange raw = true →
      save_user_input envOk s raw =
        (.ok ⟨s.nextId⟩,
         { s with userinput := s.userinput ++ [⟨s.nextId, raw⟩],
                  nextId := s.nextId + 1 })) := by
  constructor
  · intro h
    unfold suppliedInRange at h
    by_cases h1 : inRangeI 100 250 raw.height_cm = true
    · by_cases h2 : inRangeQ 30 250 raw.weight_kg = true
      · by_cases h3 : inRangeI 13 100 raw.age = true
        · simp [h1, h2, h3] at h
        · exact ⟨"age out of range", fun env => by
            simp only [Bool.not_eq_true] at h1 h2 h3
            simp [save_user_input, validateUserInput, h1, h2, h3]⟩
      · exact ⟨"weight_kg out of range", fun env => by
          simp only [Bool.not_eq_true] at h1 h2
          simp [save_user_input, validateUserInput, h1, h2]⟩
    · exact ⟨"height_cm out of range", fun env => by
        simp only [Bool.not_eq_true] at h1
        simp [save_user_input, validateUserInput, h1]⟩
  · intro h
    unfold suppliedInRange at h
    simp only [Bool.and_eq_true] at h
    obtain ⟨⟨h1, h2⟩, h3⟩ := h
    simp [save_user_input, validateUserInput, h1, h2, h3, createUserInput, envOk]

/-- Witness for C3: `height_cm = 99` is rejected with the store
untouched, while the boundary bodies `height_cm = 100, age = 13` and
`age = 100` are accepted and stored. -/
theorem user_input_range_validation_witness :
    (∃ m, ∀ env : Env,
      save_user_input env emptyStore { user_id := "u", height_cm := some 99 } =
        (.error (.http 422 m), emptyStore)) ∧
    save_user_input envOk emptyStore { user_id := "u", height_cm := some 100, age := some 13 } =
      (.ok ⟨emptyStore.nextId⟩,
       { emptyStore with
           userinput := emptyStore.userinput ++
             [⟨emptyStore.nextId, { user_id := "u", height_cm := some 100, age := some 13 }⟩],
           nextId := emptyStore.nextId + 1 }) ∧
    save_user_input envOk emptyStore { user_id := "u", age := some 100 } =
      (.ok ⟨emptyStore.nextId⟩,
       { emptyStore with
           userinput := emptyStore.userinput ++
             [⟨emptyStore.nextId, { user_id := "u", age := some 100 }⟩],
           nextId := emptyStore.nextId + 1 }) :=
  ⟨(user_input_range_validation _ _).1 (by decide),
   (user_input_range_validation _ _).2 (by decide),
   (user_input_range_validation _ _).2 (by decide)⟩

/-- The user store state after signing up `u@x.com` on the empty store. -/
def s10a : Store := (signup envOk emptyStore ⟨"u@x.com", "pw"⟩).2

/-- The state after a guest login with the same email on top of `s10a`:
it now holds a signup record and a guest record sharing one email. -/
def s10b : Store := (guest_login envOk s10a ⟨"u@x.com"⟩).2

/-- An environment whose query enumerates the two-record collection in
reversed order — a choice the store is free to make, since the adapter
guarantees no sort order. -/
def envRev : Env := fun _ => .ok [1, 0]

/-- Claim C10: the state holding both the signup record and a
guest-created record for `u@x.com` is reachable (signup, then guest
login); when the limit-1 login query enumerates it guest-record-first,
login with the correct signup password answers 401 Unauthorized,
whereas with the insertion-order enumeration it returns the signed-up
user's identifier. -/
theorem guest_record_shadows_login :
    (signup envOk emptyStore ⟨"u@x.com", "pw"⟩).1 = .ok ⟨0, "u@x.com"⟩ ∧
    (guest_login envOk s10a ⟨"u@x.com"⟩).1 = .ok ⟨1, "u@x.com", true⟩ ∧
    s10b.user =
      [⟨0, { email := "u@x.com", password_hash := "hash:pw", is_guest := false }⟩,
       ⟨1, { email := "u@x.com", password_hash := "guest", is_guest := true }⟩] ∧
    login envRev s10b ⟨"u@x.com", "pw"⟩ =
      (.error (.http 401 "Invalid credentials"), s10b) ∧
    login envOk s10b ⟨"u@x.com", "pw"⟩ = (.ok ⟨0, "u@x.com"⟩, s10b) :=
  ⟨rfl, rfl, rfl, rfl, rfl⟩

end Ruva
